import Mathlib

set_option maxRecDepth 4000

/-!
Verification development for the StromPi3 power-loss watchdog scripts
(Serial/powershutdown_serial_systemd.py and
Serialless/powershutdown_serialless_systemd.py).

The two scripts share the same core: a `power_change` callback that, on
power failure, starts a `threading.Timer` which calls
`os.system("sudo shutdown -h now")` when it elapses, and on power
restoration cancels every timer accumulated in `self.timers`.  The
`stop` method closes the transport (serial port, or GPIO event
detection) and the signal handler calls `stop`.

The embedding below models this core as explicit state passed through
pure functions, with discrete integer time.  A `threading.Timer` is an
`STimer` with an absolute expiry instant, a cancellation flag and a
fired flag; the Python runtime's behaviour (a timer fires once at its
expiry unless it was cancelled first, and `cancel` after firing is a
no-op) is the `tick` function.  Each `os.system` shutdown invocation is
recorded, with its time, in `shutdownCalls`.
-/

/-- One `threading.Timer(self.timeout, self.shutdown)` instance as created in
`power_change`: absolute expiry instant, cancellation flag, fired flag. -/
structure STimer where
  expiry : Nat
  cancelled : Bool
  fired : Bool
deriving DecidableEq

/-- The mutable state of one `ShutdownSerial` / `ShutdownSerialless` object:
the configured `timeout`, the `self.timers` list, whether the transport is
open (serial port / GPIO event detection), and the record of
`os.system("sudo shutdown -h now")` invocations (each entry is the time the
invoker was called). -/
structure WatchState where
  timeout : Nat
  timers : List STimer
  transportOpen : Bool
  shutdownCalls : List Nat
deriving DecidableEq

/-- The state right after `__init__` and `start`: configured timeout, empty
timer list, transport open, no shutdown invocations yet. -/
def initState (timeout : Nat) : WatchState :=
  { timeout := timeout, timers := [], transportOpen := true, shutdownCalls := [] }

/-- The effect of `timer.cancel()` on one timer: sets the cancellation flag;
it does not change whether the timer has already fired. -/
def cancelTimer (t : STimer) : STimer :=
  { t with cancelled := true }

/-- The `power_change` callback (identical in both scripts).  On power back
(`power_on` true / GPIO pin high) it cancels every timer in `self.timers`;
on power failure it creates a fresh timer due `timeout` from `now`, starts
it, and appends it to `self.timers`. -/
def power_change (s : WatchState) (now : Nat) (power_on : Bool) : WatchState :=
  if power_on then
    { s with timers := s.timers.map cancelTimer }
  else
    { s with timers := s.timers ++ [{ expiry := now + s.timeout, cancelled := false, fired := false }] }

/-- Whether a timer is due to run its callback at instant `now`: its delay
has elapsed, it was not cancelled, and it has not already fired. -/
def fireDue (t : STimer) (now : Nat) : Bool :=
  decide (t.expiry ≤ now) && !t.cancelled && !t.fired

/-- One instant of timer-runtime behaviour: every due timer fires, running
`shutdown` (which invokes `os.system("sudo shutdown -h now")` once), and is
marked fired so it never runs again. -/
def tick (s : WatchState) (now : Nat) : WatchState :=
  { s with
    timers := s.timers.map fun t => if fireDue t now then { t with fired := true } else t,
    shutdownCalls := s.shutdownCalls ++ (s.timers.filter fun t => fireDue t now).map fun _ => now }

/-- Deliver, in order, every external power event scheduled at instant `now`
(an event is a pair of its time and the `power_on` argument of the
resulting `power_change` call). -/
def deliverAt (s : WatchState) (now : Nat) (evs : List (Nat × Bool)) : WatchState :=
  (evs.filter fun e => e.1 == now).foldl (fun st e => power_change st now e.2) s

/-- One instant of the whole system at time `now`: external events are
delivered, then due timers fire. -/
def stepAt (s : WatchState) (evs : List (Nat × Bool)) (now : Nat) : WatchState :=
  tick (deliverAt s now evs) now

/-- Run the system for `n` instants starting at time `t0` (instants
`t0, t0 + 1, ..., t0 + n - 1`). -/
def runFrom (s : WatchState) (evs : List (Nat × Bool)) (t0 : Nat) : Nat → WatchState
  | 0 => s
  | n + 1 => runFrom (stepAt s evs t0) evs (t0 + 1) n

/-- Run the system over instants `0, 1, ..., horizon`. -/
def runTo (s : WatchState) (evs : List (Nat × Bool)) (horizon : Nat) : WatchState :=
  runFrom s evs 0 (horizon + 1)

/-- The `stop` method: `self.ser.close()` in the serial variant,
`GPIO.remove_event_detect` plus `GPIO.cleanup` in the serialless variant.
Either way it only closes the transport; it does not touch `self.timers`. -/
def stop (s : WatchState) : WatchState :=
  { s with transportOpen := false }

/-- The `signal` handler (registered for SIGTERM and SIGINT): it calls
`self.stop()` and logs; it performs no other state change. -/
def signalHandler (s : WatchState) (_isSigint : Bool) : WatchState :=
  stop s

/-- A timer is still pending (will fire in the future) when it is neither
cancelled nor already fired. -/
def isActive (t : STimer) : Bool :=
  !t.cancelled && !t.fired

/-- Number of pending timers in the state. -/
def activeCount (s : WatchState) : Nat :=
  (s.timers.filter isActive).length

/-- Python list/str containment test at the head of a character list:
true when `pat` occurs at position 0 of `s`. -/
def matchesHere : List Char → List Char → Bool
  | [], _ => true
  | _ :: _, [] => false
  | p :: ps, c :: cs => (p == c) && matchesHere ps cs

/-- Python `s.find(pat) != -1`: `pat` occurs as a contiguous substring of
`s` somewhere. -/
def hasSub (pat : List Char) : List Char → Bool
  | [] => matchesHere pat []
  | c :: cs => matchesHere pat (c :: cs) || hasSub pat cs

/-- The sentinel line the listener matches for power restoration:
`"xxx--StromPiPowerBack--xxx\n"`. -/
def powerBackLine : List Char := "xxx--StromPiPowerBack--xxx\n".toList

/-- The sentinel line the listener matches for power failure:
`"xxxShutdownRaspberryPixxx\n"`. -/
def shutdownReqLine : List Char := "xxxShutdownRaspberryPixxx\n".toList

/-- Whitespace as recognised by Python `str.isspace` (CPython's
`Py_UNICODE_ISSPACE`): the ASCII controls `\x09`-`\x0d` and `\x1c`-`\x1f`,
the space, next line `\x85`, no-break space `\xa0`, and the Unicode space
separators and line/paragraph separators. -/
def isSpaceChar (c : Char) : Bool :=
  let n := c.toNat
  (decide (9 ≤ n) && decide (n ≤ 13)) || (decide (28 ≤ n) && decide (n ≤ 31))
    || n == 32 || n == 133 || n == 160 || n == 0x1680
    || (decide (0x2000 ≤ n) && decide (n ≤ 0x200a)) || n == 0x2028 || n == 0x2029
    || n == 0x202f || n == 0x205f || n == 0x3000

/-- Python `message.isspace()`: the string is non-empty and every character
is whitespace. -/
def pyIsSpace (m : List Char) : Bool :=
  !m.isEmpty && m.all isSpaceChar

/-- Result of handling one successfully decoded line in `listen`: the new
watchdog state and whether the line was echoed via `logger.info(message)`. -/
structure ListenResult where
  state : WatchState
  logged : Bool
deriving DecidableEq

/-- The body of `listen` for one decoded `message` (serial variant,
lines 94-99): log the line when it is non-empty and not all whitespace;
call `power_change(power_on=True)` when it contains the power-back
sentinel, `power_change(power_on=False)` when it contains the
shutdown-request sentinel, and otherwise do nothing. -/
def listenDecoded (s : WatchState) (now : Nat) (message : List Char) : ListenResult :=
  { state :=
      if hasSub powerBackLine message then power_change s now true
      else if hasSub shutdownReqLine message then power_change s now false
      else s,
    logged := !message.isEmpty && !pyIsSpace message }

/-- One raw serial read in `listen`: `none` stands for a byte sequence whose
UTF-8 decode raises `UnicodeDecodeError`, which the surrounding
`try/except` catches, logging a warning (the returned flag) and leaving the
state unchanged; `some message` is a successful decode, handled by
`listenDecoded`. -/
def listenRaw (s : WatchState) (now : Nat) (raw : Option (List Char)) : WatchState × Bool :=
  match raw with
  | none => (s, true)
  | some message => ((listenDecoded s now message).state, false)

/-- The listener loop over a sequence of timed raw reads: each read is
handled by `listenRaw` and the loop continues with the remaining reads —
there is no exit path besides exhausting the input. -/
def listenLoop (s : WatchState) : List (Nat × Option (List Char)) → WatchState
  | [] => s
  | item :: rest => listenLoop (listenRaw s item.1 item.2).1 rest

/-- The domain events of the spec's Event Source Adapter (section 4.1). -/
inductive PowerEvent where
  | restored
  | lost
  | unparseable
deriving DecidableEq

/-- Spec-side event classification, following the words of section 4.1: a
line containing the power-back sentinel maps to `restored`, a line
containing the shutdown-request sentinel maps to `lost`, and any other
line is `unparseable`.  Kept separate from `listenDecoded` so the two can
be compared. -/
def classify (message : List Char) : PowerEvent :=
  if hasSub powerBackLine message then PowerEvent.restored
  else if hasSub shutdownReqLine message then PowerEvent.lost
  else PowerEvent.unparseable

/-- The serial variant's `start` open loop (lines 78-83): keep calling
`self.ser.open()` every 0.1 s until the port is open, logging and
swallowing every exception.  `ok n` says whether the n-th open attempt
succeeds; the fuel bounds how many attempts we observe.  `some k` means
the loop exited after attempt `k` succeeded; `none` means every observed
attempt failed and the loop is still retrying — there is no failure
outcome. -/
def serialOpenLoop (ok : Nat → Bool) : Nat → Nat → Option Nat
  | _, 0 => none
  | attempt, fuel + 1 =>
    if ok attempt then some attempt else serialOpenLoop ok (attempt + 1) fuel

/-- The serialless variant's `start` open (lines 160-161): a single
`serial_port.open()` with no try/except and no retry; a failed open
raises out of `start`. -/
def seriallessOpen (ok : Bool) : Except Unit Unit :=
  if ok then Except.ok () else Except.error ()

lemma cancelTimer_fired (t : STimer) : (cancelTimer t).fired = t.fired := rfl

lemma allCancelled_map_cancel (l : List STimer) :
    ((l.map cancelTimer).all fun t => t.cancelled) = true := by
  induction l with
  | nil => rfl
  | cons t l ih => simp [cancelTimer, ih]

lemma allDone_map_cancel (l : List STimer) :
    ((l.map cancelTimer).all fun t => t.cancelled || t.fired) = true := by
  induction l with
  | nil => rfl
  | cons t l ih => simp [cancelTimer, ih]

lemma filter_active_map_cancel (l : List STimer) :
    (l.map cancelTimer).filter isActive = [] := by
  induction l with
  | nil => rfl
  | cons t l ih => simp [cancelTimer, isActive, List.filter_cons, ih]

lemma map_fired_map_cancel (l : List STimer) :
    ((l.map cancelTimer).map fun t => t.fired) = l.map fun t => t.fired := by
  induction l with
  | nil => rfl
  | cons t l ih => simp [cancelTimer, ih]

lemma fireDue_false_of_done (t : STimer) (now : Nat)
    (h : (t.cancelled || t.fired) = true) : fireDue t now = false := by
  cases hc : t.cancelled with
  | true => simp [fireDue, hc]
  | false =>
    cases hf : t.fired with
    | true => simp [fireDue, hf]
    | false => rw [hc, hf] at h; simp at h

lemma fired_false_of_fireDue (t : STimer) (now : Nat)
    (h : fireDue t now = true) : t.fired = false := by
  cases hf : t.fired with
  | false => rfl
  | true => unfold fireDue at h; rw [hf] at h; simp at h

lemma map_noFire (l : List STimer) (now : Nat)
    (h : (l.all fun t => t.cancelled || t.fired) = true) :
    (l.map fun t => if fireDue t now then { t with fired := true } else t) = l := by
  induction l with
  | nil => rfl
  | cons t l ih =>
    simp only [List.all_cons, Bool.and_eq_true] at h
    simp [fireDue_false_of_done t now h.1, ih h.2]

lemma filter_noFire (l : List STimer) (now : Nat)
    (h : (l.all fun t => t.cancelled || t.fired) = true) :
    (l.filter fun t => fireDue t now) = [] := by
  induction l with
  | nil => rfl
  | cons t l ih =>
    simp only [List.all_cons, Bool.and_eq_true] at h
    simp [List.filter_cons, fireDue_false_of_done t now h.1, ih h.2]

lemma tick_stable (s : WatchState) (now : Nat)
    (h : (s.timers.all fun t => t.cancelled || t.fired) = true) :
    tick s now = s := by
  unfold tick
  rw [map_noFire s.timers now h, filter_noFire s.timers now h]
  simp

lemma deliverAt_of_no_events (s : WatchState) (now : Nat) (evs : List (Nat × Bool))
    (h : (evs.filter fun e => e.1 == now) = []) : deliverAt s now evs = s := by
  unfold deliverAt
  rw [h]
  rfl

lemma runFrom_stable (evs : List (Nat × Bool)) :
    ∀ (n t0 : Nat) (s : WatchState),
      (∀ m, t0 ≤ m → (evs.filter fun e => e.1 == m) = []) →
      (s.timers.all fun t => t.cancelled || t.fired) = true →
      runFrom s evs t0 n = s := by
  intro n
  induction n with
  | zero => intro t0 s _ _; rfl
  | succ k ih =>
    intro t0 s hev hdone
    show runFrom (stepAt s evs t0) evs (t0 + 1) k = s
    have hstep : stepAt s evs t0 = s := by
      unfold stepAt
      rw [deliverAt_of_no_events s t0 evs (hev t0 (Nat.le_refl t0)), tick_stable s t0 hdone]
    rw [hstep]
    exact ih (t0 + 1) s (fun m hm => hev m (by omega)) hdone

lemma runFrom_add (evs : List (Nat × Bool)) :
    ∀ (a : Nat) (s : WatchState) (t0 b : Nat),
      runFrom s evs t0 (a + b) = runFrom (runFrom s evs t0 a) evs (t0 + a) b := by
  intro a
  induction a with
  | zero =>
    intro s t0 b
    rw [Nat.zero_add, Nat.add_zero]
    rfl
  | succ k ih =>
    intro s t0 b
    have h1 : k + 1 + b = (k + b) + 1 := by omega
    rw [h1]
    show runFrom (stepAt s evs t0) evs (t0 + 1) (k + b)
        = runFrom (runFrom s evs t0 (k + 1)) evs (t0 + (k + 1)) b
    rw [ih (stepAt s evs t0) (t0 + 1) b]
    have h2 : t0 + 1 + k = t0 + (k + 1) := by omega
    rw [h2]
    rfl

lemma power_change_true_calls (s : WatchState) (now : Nat) :
    (power_change s now true).shutdownCalls = s.shutdownCalls := rfl

lemma power_change_false_calls (s : WatchState) (now : Nat) :
    (power_change s now false).shutdownCalls = s.shutdownCalls := rfl

lemma allDone_power_change_true (s : WatchState) (now : Nat) :
    ((power_change s now true).timers.all fun t => t.cancelled || t.fired) = true :=
  allDone_map_cancel s.timers

lemma activeCount_power_change_true (s : WatchState) (now : Nat) :
    activeCount (power_change s now true) = 0 := by
  show ((s.timers.map cancelTimer).filter isActive).length = 0
  rw [filter_active_map_cancel]
  rfl

lemma activeCount_power_change_false (s : WatchState) (now : Nat) :
    activeCount (power_change s now false) = activeCount s + 1 := by
  show ((s.timers ++ [({ expiry := now + s.timeout, cancelled := false, fired := false } : STimer)]).filter isActive).length
      = (s.timers.filter isActive).length + 1
  rw [List.filter_append]
  simp [isActive]

lemma timers_len_power_change_false (s : WatchState) (now : Nat) :
    (power_change s now false).timers.length = s.timers.length + 1 := by
  show (s.timers ++ [({ expiry := now + s.timeout, cancelled := false, fired := false } : STimer)]).length
      = s.timers.length + 1
  simp

/-- Number of timers in the list that have already run their callback. -/
def firedLen (l : List STimer) : Nat := (l.filter fun t => t.fired).length

lemma firedLen_map_cancel (l : List STimer) :
    firedLen (l.map cancelTimer) = firedLen l := by
  induction l with
  | nil => rfl
  | cons t l ih =>
    simp only [firedLen, List.map_cons, List.filter_cons] at *
    cases hf : t.fired with
    | true => simp [cancelTimer, hf, ih]
    | false => simp [cancelTimer, hf, ih]

lemma firedLen_append_new (l : List STimer) (e : Nat) :
    firedLen (l ++ [{ expiry := e, cancelled := false, fired := false }]) = firedLen l := by
  simp [firedLen, List.filter_append]

lemma firedLen_map_fire (l : List STimer) (now : Nat) :
    firedLen (l.map fun t => if fireDue t now then { t with fired := true } else t)
      = firedLen l + (l.filter fun t => fireDue t now).length := by
  induction l with
  | nil => rfl
  | cons t l ih =>
    simp only [firedLen, List.map_cons, List.filter_cons] at *
    cases hd : fireDue t now with
    | true =>
      have hf : t.fired = false := fired_false_of_fireDue t now hd
      simp [hd, hf, ih]
      omega
    | false =>
      cases hf : t.fired with
      | true => simp [hd, hf, ih]; omega
      | false => simp [hd, hf, ih]

/-- The bookkeeping invariant tying shutdown invocations to timers: the
number of recorded `os.system` shutdown calls equals the number of timers
that have fired. -/
def callsInv (s : WatchState) : Prop :=
  s.shutdownCalls.length = firedLen s.timers

lemma callsInv_initState (d : Nat) : callsInv (initState d) := rfl

lemma callsInv_power_change (s : WatchState) (now : Nat) (b : Bool)
    (h : callsInv s) : callsInv (power_change s now b) := by
  unfold callsInv at *
  cases b with
  | true =>
    show s.shutdownCalls.length = firedLen (s.timers.map cancelTimer)
    rw [firedLen_map_cancel]
    exact h
  | false =>
    show s.shutdownCalls.length
        = firedLen (s.timers ++ [({ expiry := now + s.timeout, cancelled := false, fired := false } : STimer)])
    rw [firedLen_append_new]
    exact h

lemma callsInv_tick (s : WatchState) (now : Nat) (h : callsInv s) :
    callsInv (tick s now) := by
  unfold callsInv tick at *
  simp only [List.length_append, List.length_map]
  rw [firedLen_map_fire]
  omega

lemma callsInv_foldl (now : Nat) :
    ∀ (l : List (Nat × Bool)) (s : WatchState), callsInv s →
      callsInv (l.foldl (fun st e => power_change st now e.2) s) := by
  intro l
  induction l with
  | nil => intro s h; exact h
  | cons e l ih =>
    intro s h
    exact ih (power_change s now e.2) (callsInv_power_change s now e.2 h)

lemma callsInv_stepAt (s : WatchState) (evs : List (Nat × Bool)) (now : Nat)
    (h : callsInv s) : callsInv (stepAt s evs now) :=
  callsInv_tick (deliverAt s now evs) now
    (callsInv_foldl now (evs.filter fun e => e.1 == now) s h)

lemma callsInv_runFrom (evs : List (Nat × Bool)) :
    ∀ (n t0 : Nat) (s : WatchState), callsInv s → callsInv (runFrom s evs t0 n) := by
  intro n
  induction n with
  | zero => intro t0 s h; exact h
  | succ k ih =>
    intro t0 s h
    exact ih (t0 + 1) (stepAt s evs t0) (callsInv_stepAt s evs t0 h)

lemma callsInv_runTo (d : Nat) (evs : List (Nat × Bool)) (horizon : Nat) :
    callsInv (runTo (initState d) evs horizon) :=
  callsInv_runFrom evs (horizon + 1) 0 (initState d) (callsInv_initState d)

lemma evts2_filter_eq_nil :
    ∀ m, 14 ≤ m →
      (([((0 : Nat), false), ((3 : Nat), false)]).filter fun e => e.1 == m) = [] := by
  intro m hm
  have h0 : (((0 : Nat), false).1 == m) = false := by
    simp only [beq_eq_false_iff_ne]
    omega
  have h3 : (((3 : Nat), false).1 == m) = false := by
    simp only [beq_eq_false_iff_ne]
    omega
  simp [List.filter_cons, h0, h3]

/-- Claim C1 counterexample: processing a second Lost event while a timer is
already running is not a no-op in `power_change` — it changes the state and
leaves two active timers, violating the claimed at-most-one-active-timer
invariant. -/
theorem C1_second_lost_cex :
    power_change (power_change (initState 10) 0 false) 3 false
        ≠ power_change (initState 10) 0 false
    ∧ activeCount (power_change (power_change (initState 10) 0 false) 3 false) = 2 := by
  decide

/-- Claim C1 (amended): a Lost event processed while a timer is already
running is not a no-op — `power_change` unconditionally creates, starts
and appends a fresh timer, so the number of active timers grows by one and
the timer list grows by one. -/
theorem C1_second_lost_appends (s : WatchState) (now : Nat)
    (_h : 1 ≤ activeCount s) :
    activeCount (power_change s now false) = activeCount s + 1
    ∧ (power_change s now false).timers.length = s.timers.length + 1 :=
  ⟨activeCount_power_change_false s now, timers_len_power_change_false s now⟩

theorem C1_second_lost_appends_witness :
    1 ≤ activeCount (power_change (initState 10) 0 false)
    ∧ (activeCount (power_change (power_change (initState 10) 0 false) 3 false)
          = activeCount (power_change (initState 10) 0 false) + 1
       ∧ (power_change (power_change (initState 10) 0 false) 3 false).timers.length
          = (power_change (initState 10) 0 false).timers.length + 1) :=
  ⟨by decide, C1_second_lost_appends (power_change (initState 10) 0 false) 3 (by decide)⟩

/-- Claim C2 counterexample: with delay 10 and Lost delivered at t = 0 and
again at t = 3 with no Restored in between, the shutdown invoker is called
twice — not exactly once at t = 10 as the claim states. -/
theorem C2_duplicate_lost_cex :
    (runTo (initState 10) [((0 : Nat), false), ((3 : Nat), false)] 13).shutdownCalls ≠ [10]
    ∧ (runTo (initState 10) [((0 : Nat), false), ((3 : Nat), false)] 13).shutdownCalls.length = 2 := by
  decide

/-- Claim C2 (amended): each Lost event schedules its own shutdown timer, so
with delay 10 and Lost at t = 0 and t = 3 with no Restored, the OS shutdown
invoker is called twice, at t = 10 and at t = 13, stably for every horizon
of at least 13. -/
theorem C2_duplicate_lost_two_calls (n : Nat) :
    (runTo (initState 10) [((0 : Nat), false), ((3 : Nat), false)] (13 + n)).shutdownCalls
      = [10, 13] := by
  have h1 : 13 + n + 1 = 14 + n := by omega
  show (runFrom (initState 10) [((0 : Nat), false), ((3 : Nat), false)] 0 (13 + n + 1)).shutdownCalls
      = [10, 13]
  rw [h1, runFrom_add]
  rw [runFrom_stable _ n (0 + 14) _ (fun m hm => evts2_filter_eq_nil m (by omega)) (by decide)]
  decide

/-- Claim C3 (confirmed): a Restored event cancels every pending timer, so
starting from a state with no shutdown invocations, no amount of further
timer-runtime activity ever produces an invoker call, and the arbiter is
back to the idle shape (no active timer). -/
theorem C3_restored_cancels (s : WatchState) (now t0 n : Nat)
    (h : s.shutdownCalls = []) :
    (runFrom (power_change s now true) [] t0 n).shutdownCalls = []
    ∧ activeCount (power_change s now true) = 0 := by
  constructor
  · rw [runFrom_stable [] n t0 (power_change s now true)
        (fun m _ => rfl) (allDone_power_change_true s now)]
    rw [power_change_true_calls]
    exact h
  · exact activeCount_power_change_true s now

/-- The state of the spec scenario for claim C3 at t = 4: delay 10, Lost
delivered at t = 0, one active timer due at t = 10, no invocations. -/
def c3s : WatchState := runTo (initState 10) [((0 : Nat), false)] 4

theorem C3_restored_cancels_witness :
    (runFrom (power_change c3s 5 true) [] 6 15).shutdownCalls = []
    ∧ activeCount (power_change c3s 5 true) = 0 :=
  C3_restored_cancels c3s 5 6 15 (by decide)

/-- Claim C4 counterexample: stopping the watchdog while a shutdown timer is
pending does not cancel it — the timer stays active through `stop` and its
expiry still calls the OS shutdown invoker (here at t = 10). -/
theorem C4_stop_cex :
    (runFrom (stop (runTo (initState 10) [((0 : Nat), false)] 5)) [] 6 10).shutdownCalls = [10]
    ∧ activeCount (stop (runTo (initState 10) [((0 : Nat), false)] 5)) = 1 := by
  decide

/-- Claim C4 (amended): the signal-driven stop path only closes the
transport; it leaves the timer list, the pending timers and the invocation
record untouched, so a pending timer survives stop and can still fire. -/
theorem C4_stop_amended (s : WatchState) (b : Bool) :
    signalHandler s b = stop s
    ∧ (stop s).timers = s.timers
    ∧ (stop s).shutdownCalls = s.shutdownCalls
    ∧ (stop s).transportOpen = false
    ∧ activeCount (stop s) = activeCount s :=
  ⟨rfl, rfl, rfl, rfl, rfl⟩

/-- Claim C5 (confirmed): a Restored event processed after the invoker has
been called cannot suppress or undo the invocation — `power_change` on
power-back preserves the invocation record and every timer's fired flag —
and in every reachable state the number of invoker calls equals the number
of fired timers, so each timer instance accounts for at most one call. -/
theorem C5_irrevocable (s : WatchState) (now d : Nat) (evs : List (Nat × Bool)) (horizon : Nat) :
    (power_change s now true).shutdownCalls = s.shutdownCalls
    ∧ ((power_change s now true).timers.map fun t => t.fired) = (s.timers.map fun t => t.fired)
    ∧ (runTo (initState d) evs horizon).shutdownCalls.length
        = ((runTo (initState d) evs horizon).timers.filter fun t => t.fired).length :=
  ⟨power_change_true_calls s now, map_fired_map_cancel s.timers, callsInv_runTo d evs horizon⟩

/-- Claim C6 counterexample: a whitespace-only line is non-empty and
unparseable, and it does leave the arbiter state unchanged, but contrary to
the claim it is not logged — `listen` only logs lines that are non-empty
and not all whitespace. -/
theorem C6_whitespace_line_cex :
    ([' '] ≠ ([] : List Char))
    ∧ classify [' '] = PowerEvent.unparseable
    ∧ (listenDecoded (initState 10) 0 [' ']).logged = false
    ∧ (listenDecoded (initState 10) 0 [' ']).state = initState 10 := by
  decide

/-- Claim C6 (amended): a decoded line containing the power-back sentinel is
handled as Restored, a line containing the shutdown-request sentinel as
Lost, and any other line is dropped with the arbiter state unchanged; a
line is echoed to the log exactly when it is non-empty and not entirely
whitespace. -/
theorem C6_line_mapping (s : WatchState) (now : Nat) (message : List Char) :
    (listenDecoded s now message).state
      = (match classify message with
         | PowerEvent.restored => power_change s now true
         | PowerEvent.lost => power_change s now false
         | PowerEvent.unparseable => s)
    ∧ (listenDecoded s now message).logged
        = (!message.isEmpty && !message.all isSpaceChar) := by
  constructor
  · unfold listenDecoded classify
    by_cases h1 : hasSub powerBackLine message = true
    · simp [h1]
    · by_cases h2 : hasSub shutdownReqLine message = true
      · simp [h1, h2]
      · simp [h1, h2]
  · show (!message.isEmpty && !pyIsSpace message) = (!message.isEmpty && !message.all isSpaceChar)
    unfold pyIsSpace
    cases hE : message.isEmpty <;> cases hA : message.all isSpaceChar <;> simp [hE, hA]

/-- Claim C7 (confirmed): a raw read that fails to decode is swallowed by
the listener's try/except — a warning is recorded, the state is unchanged,
and the listener loop continues with the remaining reads; there is no
fatal outcome. -/
theorem C7_decode_failure_nonfatal (s : WatchState) (now t : Nat)
    (rest : List (Nat × Option (List Char))) :
    (listenRaw s now none).1 = s
    ∧ (listenRaw s now none).2 = true
    ∧ listenLoop s ((t, none) :: rest) = listenLoop s rest :=
  ⟨rfl, rfl, rfl⟩

/-- Claim C9 counterexample: in the serialless variant a failing transport
open at startup raises out of `start` with no retry — it is fatal, contrary
to the claim that open failure is never fatal to the process. -/
theorem C9_open_fatal_cex :
    seriallessOpen false = Except.error () := rfl

/-- Claim C9 (amended): the serial variant retries the open every 0.1 s
indefinitely — with every attempt failing the loop is still retrying after
any number of attempts and never produces a failure, and a successful
attempt exits the loop — while the serialless variant performs a single
open whose failure propagates. -/
theorem C9_open_retry_amended (fuel attempt k : Nat) :
    serialOpenLoop (fun _ => false) attempt fuel = none
    ∧ serialOpenLoop (fun _ => true) attempt (k + 1) = some attempt
    ∧ seriallessOpen false = Except.error () := by
  refine ⟨?_, rfl, rfl⟩
  induction fuel generalizing attempt with
  | zero => rfl
  | succ m ih =>
    show serialOpenLoop (fun _ => false) (attempt + 1) m = none
    exact ih (attempt + 1)

/-- Claim C10 (confirmed): a single Restored event cancels every timer ever
appended to the timer list — the list is not pruned (its length is
preserved), already-fired flags are untouched (cancel on a finished timer
is a no-op), every entry ends up cancelled, and no timer remains pending. -/
theorem C10_restored_cancels_all (s : WatchState) (now : Nat) :
    ((power_change s now true).timers.all fun t => t.cancelled) = true
    ∧ (power_change s now true).timers.length = s.timers.length
    ∧ ((power_change s now true).timers.map fun t => t.fired) = (s.timers.map fun t => t.fired)
    ∧ activeCount (power_change s now true) = 0 := by
  refine ⟨allCancelled_map_cancel s.timers, ?_, map_fired_map_cancel s.timers,
    activeCount_power_change_true s now⟩
  show (s.timers.map cancelTimer).length = s.timers.length
  simp
